import Mathlib

/-!
Verification development for the deep-research workflow orchestration engine:
the session store with checkpoint reconciliation (services/session_manager.py),
the in-process event bus (services/event_bus.py), and the phase/fan-out
orchestrator (services/orchestrator.py).

The data-model module (models/research.py) is not part of the sources at hand;
its definitions are modelled from the specification and the shapes exercised by
the repository's tests, and each such definition is marked accordingly.
All other definitions are shallow embeddings translated directly from the
Python sources named in their doc comments.
-/

namespace DR

/-- Research phase enum. Modelled from the spec: phase values
Planning, PlanReview, Researching, Synthesizing, Completed, Failed, Cancelled
(models/research.py, ResearchPhase). -/
inductive ResearchPhase
  | planning
  | plan_review
  | researching
  | synthesizing
  | completed
  | failed
  | cancelled
deriving DecidableEq, Repr

/-- Phase ordering for comparison, higher = more advanced in workflow.
Translated from session_manager.py lines 21-29 (_PHASE_ORDER dict). -/
def PHASE_ORDER : ResearchPhase → Nat
  | .planning => 0
  | .plan_review => 1
  | .researching => 2
  | .synthesizing => 3
  | .completed => 4
  | .failed => 4
  | .cancelled => 4

/-- Rank of a phase in the fixed total order the spec states in section 4.2:
Planning < PlanReview < Researching < Synthesizing < the class of terminal
phases Completed, Failed, Cancelled. Written from the spec wording, to be
compared against the code's PHASE_ORDER comparison. -/
def specPhaseRank : ResearchPhase → Nat
  | .planning => 0
  | .plan_review => 1
  | .researching => 2
  | .synthesizing => 3
  | _ => 4

/-- Strictly-more-advanced relation under the spec's fixed total order. -/
def specMoreAdvanced (a b : ResearchPhase) : Bool :=
  specPhaseRank b < specPhaseRank a

/-- Plan item status enum. Modelled from the spec: pending, in_progress,
completed, skipped, failed (models/research.py, PlanItemStatus). -/
inductive PlanItemStatus
  | pending
  | in_progress
  | completed
  | skipped
  | failed
deriving DecidableEq, Repr

/-- Worker progress status enum. Modelled from the spec: pending, running,
completed, failed (models/research.py, AgentStatus). -/
inductive AgentStatus
  | pending
  | running
  | completed
  | failed
deriving DecidableEq, Repr

/-- Extracted source reference. Modelled from the spec and the tests
(models/research.py, Source). -/
structure Source where
  url : Option String := none
  title : String := "Unknown"
  snippet : String := ""
  reliability : String := "medium"
deriving DecidableEq, Repr

/-- One discrete unit of research work. Modelled from the spec and the tests
(models/research.py, PlanItem). -/
structure PlanItem where
  id : String
  topic : String
  description : String
  scope : String := ""
  priority : Nat := 1
  key_questions : List String := []
  suggested_sources : List String := []
  status : PlanItemStatus := .pending
deriving DecidableEq, Repr

/-- A research plan. Modelled from the spec and the tests
(models/research.py, ResearchPlan). -/
structure ResearchPlan where
  understanding : String
  clarifications : List String := []
  plan_items : List PlanItem
  estimated_time_minutes : Nat := 30
deriving DecidableEq, Repr

/-- Items of the plan still pending. Modelled from the spec and the tests
(models/research.py, ResearchPlan.get_pending_items). -/
def ResearchPlan.get_pending_items (p : ResearchPlan) : List PlanItem :=
  p.plan_items.filter (fun it => it.status = .pending)

/-- Set the status of the plan item with the given id, leaving other items
unchanged. Modelled from the spec and the tests
(models/research.py, ResearchPlan.update_item_status). -/
def ResearchPlan.update_item_status (p : ResearchPlan) (id : String)
    (st : PlanItemStatus) : ResearchPlan :=
  { p with plan_items :=
      p.plan_items.map (fun it => if it.id = id then { it with status := st } else it) }

/-- Per-item progress record. Modelled from the spec and the tests
(models/research.py, AgentProgress). Percentages are rationals standing for
the Python floats, which only ever take small integer values here. -/
structure AgentProgress where
  agent_id : String
  plan_item_id : String
  topic : String
  status : AgentStatus := .pending
  progress_percent : ℚ := 0
  current_action : String := ""
  error : Option String := none
  started_at : Option Nat := none
  completed_at : Option Nat := none
deriving DecidableEq, Repr

/-- One worker's result. Modelled from the spec and the tests
(models/research.py, AgentResult). -/
structure AgentResult where
  agent_id : String
  plan_item_id : String
  topic : String
  findings : String
  sources : List Source := []
  confidence : ℚ := 4/5
  raw_notes : String := ""
  execution_time : ℚ := 0
deriving DecidableEq, Repr

/-- A point-in-time durable snapshot of a workflow. Modelled from the spec and
the tests (models/research.py, Checkpoint); the free-form metadata dict is
modelled by its two used keys, user_query and detected_language. -/
structure Checkpoint where
  session_id : String
  phase : ResearchPhase
  plan : Option ResearchPlan := none
  completed_agents : List String := []
  pending_agents : List String := []
  agent_results : List AgentResult := []
  metadata_user_query : String := ""
  metadata_detected_language : String := "en"
  checkpoint_time : Nat := 0
deriving DecidableEq, Repr

/-- A workflow session. Modelled from the spec and the tests
(models/research.py, ResearchSession); timestamps are abstract Nat instants,
and the agent-progress dict is an association list keyed by agent id. -/
structure ResearchSession where
  session_id : String
  user_query : String
  detected_language : String := "en"
  phase : ResearchPhase := .planning
  plan : Option ResearchPlan := none
  agent_progress : List (String × AgentProgress) := []
  agent_results : List AgentResult := []
  final_report : Option String := none
  error : Option String := none
  created_at : Nat := 0
  updated_at : Nat := 0
  completed_at : Option Nat := none
deriving DecidableEq, Repr

/-- Append a worker result to the session. Modelled from the spec and the tests
(models/research.py, ResearchSession.add_agent_result). -/
def ResearchSession.add_agent_result (s : ResearchSession) (r : AgentResult) :
    ResearchSession :=
  { s with agent_results := s.agent_results ++ [r] }

/-- Replace-or-insert the progress record keyed by its agent id. Modelled from
the spec and the tests (models/research.py,
ResearchSession.update_agent_progress). -/
def ResearchSession.update_agent_progress (s : ResearchSession)
    (p : AgentProgress) : ResearchSession :=
  { s with agent_progress :=
      if (s.agent_progress.find? (fun kv => kv.1 = p.agent_id)).isSome then
        s.agent_progress.map (fun kv => if kv.1 = p.agent_id then (kv.1, p) else kv)
      else
        s.agent_progress ++ [(p.agent_id, p)] }

/-- Look up the progress record for an agent id. -/
def ResearchSession.lookup_progress (s : ResearchSession) (agent_id : String) :
    Option AgentProgress :=
  (s.agent_progress.find? (fun kv => kv.1 = agent_id)).map (fun kv => kv.2)

/-- Snapshot a session into a checkpoint. Modelled from the spec and the tests
(models/research.py, ResearchSession.to_checkpoint): the ids of agents with a
result are the completed set, items still pending form the pending set, and
the metadata records the original query and language. -/
def ResearchSession.to_checkpoint (s : ResearchSession) (now : Nat) : Checkpoint :=
  { session_id := s.session_id
    phase := s.phase
    plan := s.plan
    completed_agents := s.agent_results.map (fun r => r.agent_id)
    pending_agents :=
      (s.plan.map (fun p => p.get_pending_items.map (fun it => it.id))).getD []
    agent_results := s.agent_results
    metadata_user_query := s.user_query
    metadata_detected_language := s.detected_language
    checkpoint_time := now }

/-- Reconstruct a session from a checkpoint snapshot. Modelled from the spec
and the tests (models/research.py, ResearchSession.from_checkpoint): identity,
query and language come from the checkpoint and its metadata, the phase, plan
and results from the snapshot; fields absent from a checkpoint (final report,
error, progress map, timestamps) start empty. -/
def ResearchSession.from_checkpoint (cp : Checkpoint) : ResearchSession :=
  { session_id := cp.session_id
    user_query := cp.metadata_user_query
    detected_language := cp.metadata_detected_language
    phase := cp.phase
    plan := cp.plan
    agent_progress := []
    agent_results := cp.agent_results
    final_report := none
    error := none
    created_at := 0
    updated_at := 0
    completed_at := none }

/-- Truthiness of the nullable final_report column: Python treats both NULL and
the empty string as falsy in the restore guard (session_manager.py line 425). -/
def hasFinalReport : Option String → Bool
  | some s => s ≠ ""
  | none => false

/-- A stored checkpoint row: autoincrement rowid, session id, snapshot payload
and creation time (session_manager.py, checkpoints table, lines 81-95). -/
structure CheckpointRow where
  rowid : Nat
  session_id : String
  checkpoint : Checkpoint
  created_at : Nat
deriving DecidableEq, Repr

/-- The durable store: one row per session keyed by session id, plus the
append-only checkpoint table (session_manager.py, SessionManager's SQLite
schema). Checkpoint rows appear in insertion order. -/
structure SessionStore where
  sessions : List ResearchSession
  checkpoints : List CheckpointRow
deriving DecidableEq, Repr

/-- Fetch a session row by exact id (session_manager.py lines 153-173,
SessionManager.get_session). The id is a primary key, so find? models the
unique-row SELECT. -/
def get_session (store : SessionStore) (session_id : String) :
    Option ResearchSession :=
  store.sessions.find? (fun s => s.session_id = session_id)

/-- Pick the most recently created row from a list of candidates, modelling
ORDER BY created_at DESC LIMIT 1. -/
def mostRecentSession : List ResearchSession → Option ResearchSession :=
  List.foldl
    (fun acc s =>
      match acc with
      | none => some s
      | some b => if b.created_at < s.created_at then some s else some b)
    none

/-- Find a session whose id starts with the given short id, resolving an
ambiguous match to the most recently created row (session_manager.py lines
175-200, SessionManager.find_session_by_prefix). -/
def find_session_by_short_id (store : SessionStore) (p : String) :
    Option ResearchSession :=
  mostRecentSession (store.sessions.filter (fun s => p.isPrefixOf s.session_id))

/-- Resolve an id-or-short-id argument to a session row: ids shorter than the
36 characters of a dashed UUID go through the short-id lookup, full ids are
fetched exactly (session_manager.py lines 403-414). -/
def resolveSessionId (store : SessionStore) (session_id : String) :
    Option ResearchSession :=
  if session_id.length < 36 then find_session_by_short_id store session_id
  else get_session store session_id

/-- Most recent checkpoint row among candidates, modelling
ORDER BY created_at DESC LIMIT 1 over the checkpoints table. -/
def mostRecentCheckpointRow : List CheckpointRow → Option CheckpointRow :=
  List.foldl
    (fun acc r =>
      match acc with
      | none => some r
      | some b => if b.created_at < r.created_at then some r else some b)
    none

/-- Latest checkpoint for a session id (session_manager.py lines 339-363,
SessionManager.get_latest_checkpoint). -/
def get_latest_checkpoint (store : SessionStore) (session_id : String) :
    Option Checkpoint :=
  (mostRecentCheckpointRow
      (store.checkpoints.filter (fun r => r.session_id = session_id))).map
    (fun r => r.checkpoint)

/-- All checkpoints for a session, newest first (session_manager.py lines
365-386, SessionManager.list_checkpoints); rows are appended in creation
order, so reversal models the descending sort. -/
def list_checkpoints (store : SessionStore) (session_id : String) :
    List Checkpoint :=
  ((store.checkpoints.filter (fun r => r.session_id = session_id)).reverse).map
    (fun r => r.checkpoint)

/-- Append a full checkpoint snapshot, never overwriting an existing row
(session_manager.py lines 309-337, SessionManager.save_checkpoint). -/
def save_checkpoint (store : SessionStore) (session : ResearchSession)
    (now : Nat) : SessionStore × Nat :=
  let rowid := store.checkpoints.length + 1
  ({ store with
      checkpoints := store.checkpoints ++
        [{ rowid := rowid
           session_id := session.session_id
           checkpoint := session.to_checkpoint now
           created_at := now }] },
   rowid)

/-- Delete a session row and all of its checkpoint rows in the same call,
returning whether a session row was actually deleted (session_manager.py lines
244-271, SessionManager.delete_session: checkpoints are deleted first, then
the session row, and the returned flag is rowcount > 0 of the session
delete). -/
def delete_session (store : SessionStore) (session_id : String) :
    SessionStore × Bool :=
  let remainingCheckpoints :=
    store.checkpoints.filter (fun r => r.session_id ≠ session_id)
  let deletedRows := store.sessions.filter (fun s => s.session_id = session_id)
  ({ sessions := store.sessions.filter (fun s => s.session_id ≠ session_id)
     checkpoints := remainingCheckpoints },
   0 < deletedRows.length)

/-- Restore a session from its latest checkpoint or the session table
(session_manager.py lines 388-447, SessionManager.restore_from_checkpoint):
resolve the id, return the row verbatim when its phase is terminal or it
carries a non-empty final report; otherwise reconstruct from the most recent
checkpoint when one exists, overlaying the row's final report and error and
preferring the row's phase when it is strictly more advanced under
PHASE_ORDER; with no checkpoint, return the row unchanged. -/
def restore_from_checkpoint (store : SessionStore) (session_id : String) :
    Option ResearchSession :=
  match resolveSessionId store session_id with
  | none => none
  | some session =>
    if session.phase = .completed ∨ session.phase = .failed ∨
        session.phase = .cancelled ∨ hasFinalReport session.final_report then
      some session
    else
      match get_latest_checkpoint store session.session_id with
      | some checkpoint =>
        let restored := ResearchSession.from_checkpoint checkpoint
        let restored :=
          { restored with
              final_report := session.final_report
              error := session.error }
        let restored :=
          if PHASE_ORDER checkpoint.phase < PHASE_ORDER session.phase then
            { restored with phase := session.phase }
          else restored
        some restored
      | none => some session

/-! ## Event bus (services/event_bus.py)

Handlers are identified by natural numbers; their behaviour is an abstract
function that either returns normally or raises (models an async handler whose
awaited call may throw). Python's handler sets are modelled as lists used with
set semantics: adding is insert-if-absent, discarding removes every copy. The
dict-of-dict bucket structure of session handlers is flattened into a list of
(session id, event type, handler) triples; the Python code's deletion of
emptied buckets only tidies that nesting and is observationally irrelevant,
since publish's bucket-membership tests coincide with triple membership. -/

/-- Event type enum (models/events.py, EventType). -/
inductive EventType
  | plan_progress
  | plan_draft
  | plan_updated
  | phase_change
  | agent_started
  | agent_progress
  | agent_completed
  | agent_failed
  | checkpoint_saved
  | synthesis_started
  | synthesis_progress
  | report_ready
  | error
  | heartbeat
  | session_cancelled
deriving DecidableEq, Repr

/-- All event types, in declaration order; models iterating over the Python
EventType enum in subscribe_all (event_bus.py line 131). -/
def EventType.all : List EventType :=
  [.plan_progress, .plan_draft, .plan_updated, .phase_change, .agent_started,
   .agent_progress, .agent_completed, .agent_failed, .checkpoint_saved,
   .synthesis_started, .synthesis_progress, .report_ready, .error, .heartbeat,
   .session_cancelled]

/-- The event envelope, reduced to the fields publish dispatches on
(models/events.py, BaseEvent: the timestamp and data payload never influence
routing). -/
structure BusEvent where
  event_type : EventType
  session_id : String
deriving DecidableEq, Repr

/-- A bounded per-session stream queue (asyncio.Queue with a maxsize). -/
structure StreamQueue where
  items : List BusEvent := []
  maxsize : Nat := 100
deriving DecidableEq, Repr

/-- Event bus state (event_bus.py lines 23-37): global handlers per event
type, session-scoped handlers per (session id, event type), and per-session
stream queues. -/
structure EventBusState where
  global_handlers : List (EventType × Nat) := []
  session_handlers : List (String × EventType × Nat) := []
  session_queues : List (String × StreamQueue) := []
deriving DecidableEq, Repr

/-- Behaviour of handlers: invoking handler h on an event either returns or
raises the given exception message. -/
def HandlerBeh := Nat → BusEvent → Except String Unit

/-- The handlers publish collects for an event (event_bus.py lines 47-58):
global handlers subscribed for the event's type, then session handlers
subscribed for the event's (session id, type) pair. -/
def matchedHandlers (bus : EventBusState) (ev : BusEvent) : List Nat :=
  (bus.global_handlers.filter
      (fun p => p.1 = ev.event_type)).map (fun p => p.2) ++
  (bus.session_handlers.filter
      (fun t => t.1 = ev.session_id ∧ t.2.1 = ev.event_type)).map
    (fun t => t.2.2)

/-- Safely call a handler, catching any exception it raises (event_bus.py
lines 74-79, EventBus._safe_call: the exception is logged and
swallowed). -/
def safeCall (beh : HandlerBeh) (h : Nat) (ev : BusEvent) :
    Except String Unit :=
  match beh h ev with
  | Except.ok _ => Except.ok ()
  | Except.error _ => Except.ok ()

/-- Enqueue the event on the session's stream queue when one exists
(event_bus.py lines 67-72): a full queue drops the event with a warning
(the QueueFull exception is caught), it never blocks the publisher. -/
def enqueueSessionEvent (bus : EventBusState) (ev : BusEvent) : EventBusState :=
  { bus with session_queues :=
      bus.session_queues.map (fun q =>
        if q.1 = ev.session_id then
          if q.2.items.length < q.2.maxsize then
            (q.1, { q.2 with items := q.2.items ++ [ev] })
          else q
        else q) }

/-- Invoke a list of handlers on an event, one safe call each, accumulating
the handlers invoked; an exception escaping a call would abort the remaining
invocations and propagate through the Except layer — safeCall is what prevents
that. -/
def invokeHandlers (beh : HandlerBeh) (ev : BusEvent) :
    List Nat → List Nat → Except String (List Nat)
  | [], acc => Except.ok acc
  | h :: rest, acc =>
    match safeCall beh h ev with
    | Except.ok _ => invokeHandlers beh ev rest (acc ++ [h])
    | Except.error e => Except.error e

/-- Publish an event (event_bus.py lines 39-72, EventBus.publish): every
matched handler is invoked through safeCall — the gather with
return_exceptions, plus the per-handler try/except, keep one handler's
exception from aborting the others or the publisher — then the event is put on
the session queue. The returned list records the handlers actually invoked,
and the Except layer records whether any exception escaped to the caller. -/
def publish (bus : EventBusState) (beh : HandlerBeh) (ev : BusEvent) :
    Except String (List Nat × EventBusState) :=
  match invokeHandlers beh ev (matchedHandlers bus ev) [] with
  | Except.ok invoked => Except.ok (invoked, enqueueSessionEvent bus ev)
  | Except.error e => Except.error e

/-- Set-insert of a global (event type, handler) registration
(event_bus.py line 109, set.add). -/
def addGlobalHandler (l : List (EventType × Nat)) (t : EventType) (h : Nat) :
    List (EventType × Nat) :=
  if (t, h) ∈ l then l else l ++ [(t, h)]

/-- Set-insert of a session-scoped registration (event_bus.py line 98). -/
def addSessionHandler (l : List (String × EventType × Nat)) (sid : String)
    (t : EventType) (h : Nat) : List (String × EventType × Nat) :=
  if (sid, t, h) ∈ l then l else l ++ [(sid, t, h)]

/-- The unsubscribe closure subscribe returns (event_bus.py lines 100-113):
discard the registration from its bucket; set.discard never raises on an
absent element, and re-running it on the already-cleaned state is a no-op. -/
def unsubFun (t : EventType) (h : Nat) (sid : Option String) :
    EventBusState → EventBusState :=
  fun b =>
    match sid with
    | some s =>
      { b with session_handlers :=
          b.session_handlers.filter (fun x => x ≠ (s, t, h)) }
    | none =>
      { b with global_handlers :=
          b.global_handlers.filter (fun x => x ≠ (t, h)) }

/-- Subscribe a handler to an event type, globally or session-scoped,
returning the new bus state and the unsubscribe function (event_bus.py lines
81-114, EventBus.subscribe). -/
def subscribe (bus : EventBusState) (t : EventType) (h : Nat)
    (sid : Option String) : EventBusState × (EventBusState → EventBusState) :=
  match sid with
  | some s =>
    ({ bus with session_handlers := addSessionHandler bus.session_handlers s t h },
     unsubFun t h (some s))
  | none =>
    ({ bus with global_handlers := addGlobalHandler bus.global_handlers t h },
     unsubFun t h none)

/-- One iteration of subscribe_all's loop over the event types: subscribe the
handler to the next type and append the returned unsubscriber
(event_bus.py lines 130-133). -/
def subscribeAllStep (h : Nat) (sid : Option String)
    (acc : EventBusState × List (EventBusState → EventBusState))
    (t : EventType) : EventBusState × List (EventBusState → EventBusState) :=
  ((subscribe acc.1 t h sid).1, acc.2 ++ [(subscribe acc.1 t h sid).2])

/-- Subscribe a handler to every event type, returning the bus state and an
unsubscribe-all function that runs each collected unsubscriber in order
(event_bus.py lines 116-139, EventBus.subscribe_all). -/
def subscribeAll (bus : EventBusState) (h : Nat) (sid : Option String) :
    EventBusState × (EventBusState → EventBusState) :=
  let folded := EventType.all.foldl (subscribeAllStep h sid) (bus, [])
  (folded.1, fun st => folded.2.foldl (fun x u => u x) st)

/-- A handler id occurs nowhere in the bus's registration tables. -/
def handlerFree (bus : EventBusState) (h : Nat) : Prop :=
  (∀ p ∈ bus.global_handlers, p.2 ≠ h) ∧
  (∀ x ∈ bus.session_handlers, x.2.2 ≠ h)

/-! ## Orchestrator (services/orchestrator.py)

Worker Execution is an external collaborator; a worker run is therefore an
abstract outcome: either a returned ExecutionResult, or an exception crossing
the await. Likewise the JSON decoding libraries (json.loads, json_repair) are
abstract parameters: a decode either yields structured data or fails. -/

/-- Result of one Worker Execution call (core/agent/types.py,
ExecutionResult, as consumed by the orchestrator). -/
structure ExecutionResult where
  success : Bool
  content : String
  error : Option String := none
  execution_time : ℚ := 0
deriving DecidableEq, Repr

/-- Outcome of awaiting one worker execution: a returned result, or an
exception with its message (covers timeouts and transport errors surfaced as
exceptions, and any exception raised inside the per-item try body). -/
inductive ExecOutcome
  | finished (r : ExecutionResult)
  | raised (msg : String)
deriving DecidableEq, Repr

/-- Whether the outcome takes the researcher's failure path: the executor
reported success=false (orchestrator.py lines 476-477 raise on it) or an
exception was raised. -/
def isFailureOutcome : ExecOutcome → Bool
  | .finished r => !r.success
  | .raised _ => true

/-- One progress-callback step on the percent field (orchestrator.py line 466:
progress.progress_percent = min(progress.progress_percent + 5, 90)). -/
def stepMsgPercent (p : ℚ) : ℚ := min (p + 5) 90

/-- Percent after n progress-callback invocations, starting from the fresh
record's 0 (orchestrator.py lines 431-437 and 463-472). -/
def percentAfter : Nat → ℚ
  | 0 => 0
  | n + 1 => stepMsgPercent (percentAfter n)

/-- Structured data optionally embedded in a researcher's free-form output
(orchestrator.py lines 574-593: the sources, findings and confidence keys
of the decoded object). -/
structure ResearcherJson where
  findings : Option String := none
  sources : List Source := []
  confidence : Option ℚ := none
deriving DecidableEq, Repr

/-- Index of the last occurrence of a character in a character list. -/
def lastIdxOf (cs : List Char) (c : Char) : Option Nat :=
  match cs.reverse.findIdx? (fun x => x = c) with
  | none => none
  | some k => some (cs.length - 1 - k)

/-- The greedy brace match: from the first opening brace to the last closing
brace, which must come after it (the standalone-object regex in
orchestrator.py lines 244-246 and 574). -/
def extractBraces (s : String) : Option String :=
  let cs := s.toList
  match cs.findIdx? (fun c => c = '\x7b'), lastIdxOf cs '\x7d' with
  | some i, some j =>
    if i < j then some (String.mk ((cs.drop i).take (j - i + 1))) else none
  | _, _ => none

/-- Parse a researcher response into an AgentResult (orchestrator.py lines
548-607, _parse_researcher_response): free-form text is the findings with the
default confidence; when an embedded JSON object decodes, its findings,
sources and confidence override the defaults. This function never raises —
decode failures fall back to the raw content. -/
def parseResearcherResponse (loads : String → Option ResearcherJson)
    (agent_id plan_item_id topic : String) (result : ExecutionResult) :
    AgentResult :=
  let content := result.content
  match extractBraces content with
  | some js =>
    match loads js with
    | some data =>
      { agent_id := agent_id
        plan_item_id := plan_item_id
        topic := topic
        findings := data.findings.getD content
        sources := data.sources
        confidence := data.confidence.getD (4/5)
        raw_notes := content
        execution_time := result.execution_time }
    | none =>
      { agent_id := agent_id
        plan_item_id := plan_item_id
        topic := topic
        findings := content
        sources := []
        confidence := 4/5
        raw_notes := content
        execution_time := result.execution_time }
  | none =>
    { agent_id := agent_id
      plan_item_id := plan_item_id
      topic := topic
      findings := content
      sources := []
      confidence := 4/5
      raw_notes := content
      execution_time := result.execution_time }

/-- The exception text of the researcher failure path when the executor
reported failure: RuntimeError(result.error or "Research failed")
(orchestrator.py line 477; Python's or treats an empty error as absent). -/
def errText : Option String → String
  | some s => if s = "" then "Research failed" else s
  | none => "Research failed"

/-- The degraded result built for a failed item (orchestrator.py lines
522-530): confidence 0 and the error text as findings. -/
def researchFailedResult (agent_id plan_item_id topic msg : String)
    (elapsed : ℚ) : AgentResult :=
  { agent_id := agent_id
    plan_item_id := plan_item_id
    topic := topic
    findings := "Research failed: " ++ msg
    sources := []
    confidence := 0
    raw_notes := ""
    execution_time := elapsed }

/-- Shared failure tail of _run_single_researcher (orchestrator.py lines
510-546, the except block): mark progress failed, mark the plan item failed,
append the degraded result to the session — the same mutex-guarded append the
success path uses — and return it. No exception escapes this path. -/
def runResearcherFailure (session : ResearchSession) (item : PlanItem)
    (agent_id : String) (progress : AgentProgress) (msg : String)
    (elapsed : ℚ) : ResearchSession × AgentResult :=
  let progress :=
    { progress with
        status := AgentStatus.failed
        error := some msg
        completed_at := some 0 }
  let session := session.update_agent_progress progress
  let session :=
    { session with
        plan := session.plan.map
          (fun (p : ResearchPlan) => p.update_item_status item.id .failed) }
  let failed := researchFailedResult agent_id item.id item.topic msg elapsed
  (session.add_agent_result failed, failed)

/-- Run one researcher over a plan item (orchestrator.py lines 409-546,
_run_single_researcher): mark the item in progress, create a running Progress
record, let nmsgs progress callbacks advance its percent, then either build
the parsed result and mark everything completed with percent 100, or take the
failure path. The outcome argument stands for awaiting executor.execute;
elapsed stands for the wall-clock duration used for a failed result. -/
def runSingleResearcher (loads : String → Option ResearcherJson)
    (session : ResearchSession) (item : PlanItem) (outcome : ExecOutcome)
    (nmsgs : Nat) (elapsed : ℚ) : ResearchSession × AgentResult :=
  let agent_id := "researcher-" ++ item.id
  let session :=
    { session with
        plan := session.plan.map
          (fun (p : ResearchPlan) => p.update_item_status item.id .in_progress) }
  let progress : AgentProgress :=
    { agent_id := agent_id
      plan_item_id := item.id
      topic := item.topic
      status := AgentStatus.running
      started_at := some 0 }
  let session := session.update_agent_progress progress
  let progress := { progress with progress_percent := percentAfter nmsgs }
  match outcome with
  | .finished r =>
    if r.success then
      let agent_result :=
        parseResearcherResponse loads agent_id item.id item.topic r
      let progress :=
        { progress with
            status := AgentStatus.completed
            progress_percent := 100
            completed_at := some 0 }
      let session := session.update_agent_progress progress
      let session :=
        { session with
            plan := session.plan.map
              (fun (p : ResearchPlan) => p.update_item_status item.id .completed) }
      (session.add_agent_result agent_result, agent_result)
    else
      runResearcherFailure session item agent_id progress (errText r.error)
        elapsed
  | .raised msg =>
    runResearcherFailure session item agent_id progress msg elapsed

/-- The result one item contributes, which depends only on the item and its
own execution outcome — never on the session state or on sibling items. -/
def producedResult (loads : String → Option ResearcherJson) (item : PlanItem)
    (outcome : ExecOutcome) (elapsed : ℚ) : AgentResult :=
  match outcome with
  | .finished r =>
    if r.success then
      parseResearcherResponse loads ("researcher-" ++ item.id) item.id
        item.topic r
    else
      researchFailedResult ("researcher-" ++ item.id) item.id item.topic
        (errText r.error) elapsed
  | .raised msg =>
    researchFailedResult ("researcher-" ++ item.id) item.id item.topic msg
      elapsed

/-- One step of the fan-in: run the next item's researcher over the session
state left by the previously joined critical sections and append its result
to the batch. -/
def researchFoldStep (loads : String → Option ResearcherJson)
    (outcomes : PlanItem → ExecOutcome) (nmsgs : PlanItem → Nat)
    (elapsed : PlanItem → ℚ) (acc : ResearchSession × List AgentResult)
    (item : PlanItem) : ResearchSession × List AgentResult :=
  let stepped :=
    runSingleResearcher loads acc.1 item (outcomes item) (nmsgs item)
      (elapsed item)
  (stepped.1, acc.2 ++ [stepped.2])

/-- Run the research phase over all pending plan items (orchestrator.py lines
334-388, run_research_phase): with no plan it raises; otherwise it moves the
session to Researching and runs one researcher per pending item. The worker
tasks run concurrently under the semaphore, but every session mutation —
append result plus persist — happens inside the per-session mutex, so the
interleaving is equivalent to this sequential fold over the critical sections;
gather(..., return_exceptions=True) plus the per-item except block means every
task yields a value and the fold is total. -/
def runResearchPhase (loads : String → Option ResearcherJson)
    (session : ResearchSession) (outcomes : PlanItem → ExecOutcome)
    (nmsgs : PlanItem → Nat) (elapsed : PlanItem → ℚ) :
    Except String (ResearchSession × List AgentResult) :=
  match session.plan with
  | none => Except.error "No plan available for research"
  | some plan =>
    let session := { session with phase := ResearchPhase.researching }
    let pending := plan.get_pending_items
    Except.ok (pending.foldl (researchFoldStep loads outcomes nmsgs elapsed)
      (session, []))

/-! ### Planner response parsing (orchestrator.py, _parse_plan_response) -/

/-- Distinguished parse failure, modelling the ValueError raised by
_parse_plan_response (the spec's ParseFailure taxonomy entry). -/
inductive PlanParseError
  | noJsonFound (responseStart : String)
  | repairFailed
  | emptyClarifications
  | emptyPlanItems
deriving DecidableEq, Repr

/-- The decoded planner object, reduced to the keys the parser reads
(orchestrator.py lines 266-296): mode, clarifications, plan_items,
understanding and estimated_time_minutes. -/
structure PlanItemJson where
  id : Option String := none
  topic : Option String := none
  description : Option String := none
  scope : Option String := none
  priority : Option Nat := none
  key_questions : List String := []
  suggested_sources : List String := []
deriving DecidableEq, Repr

/-- Decoded top-level planner JSON object. -/
structure PlanJson where
  mode : Option String := none
  clarifications : List String := []
  plan_items : List PlanItemJson := []
  understanding : Option String := none
  estimated_time_minutes : Option Nat := none
deriving DecidableEq, Repr

/-- What plan parsing returns: clarification questions, or a full plan
(orchestrator.py lines 221-297). -/
inductive PlanParseOutcome
  | clarifications (qs : List String)
  | plan (p : ResearchPlan)
deriving DecidableEq, Repr

/-- Strip leading and trailing whitespace from a character list (the .strip()
calls around extracted JSON). -/
def trimChars (cs : List Char) : List Char :=
  ((cs.dropWhile Char.isWhitespace).reverse.dropWhile Char.isWhitespace).reverse

/-- Character index of the first triple-backtick fence in a character list. -/
def fenceIdx : List Char → Option Nat
  | '`' :: '`' :: '`' :: _ => some 0
  | _ :: rest => (fenceIdx rest).map (fun i => i + 1)
  | [] => none

/-- Drop a leading literal json tag, as the code-block regex's optional json
group does. -/
def dropJsonTagChars : List Char → List Char
  | 'j' :: 's' :: 'o' :: 'n' :: rest => rest
  | cs => cs

/-- Extract the contents of the first fenced code block: the (non-greedy)
text between the first pair of triple-backtick markers, with an optional json
tag and surrounding whitespace removed (the code-block regex plus .strip(),
orchestrator.py lines 239-241). -/
def extractCodeBlock (s : String) : Option String :=
  let cs := s.toList
  match fenceIdx cs with
  | none => none
  | some i =>
    let inner := cs.drop (i + 3)
    match fenceIdx inner with
    | none => none
    | some j => some (String.mk (trimChars (dropJsonTagChars (inner.take j))))

/-- Whether the stripped content starts with an opening brace
(content.strip().startswith of the opening brace, orchestrator.py
line 247). -/
def startsWithBrace (s : String) : Bool :=
  match trimChars s.toList with
  | c :: _ => c = '\x7b'
  | [] => false

/-- Locate the JSON candidate inside the planner response (orchestrator.py
lines 236-250): a fenced code block first, else the greedy brace match, else —
unless the stripped content itself starts with an opening brace — fail with
the could-not-find-JSON error before any decode is attempted. -/
def extractJsonStr (content : String) : Except PlanParseError String :=
  match extractCodeBlock content with
  | some js => Except.ok js
  | none =>
    match extractBraces content with
    | some js => Except.ok js
    | none =>
      if !startsWithBrace content then
        Except.error
          (PlanParseError.noJsonFound (String.mk (content.toList.take 200)))
      else
        Except.ok content

/-- Build one PlanItem from its decoded dict, with the source's per-key
defaults; defaultId stands for the fresh uuid4 prefix generated for an item
with no id (orchestrator.py lines 277-287). -/
def buildPlanItem (defaultId : String) (d : PlanItemJson) : PlanItem :=
  { id := d.id.getD defaultId
    topic := d.topic.getD "Unknown"
    description := d.description.getD ""
    scope := d.scope.getD ""
    priority := d.priority.getD 1
    key_questions := d.key_questions
    suggested_sources := d.suggested_sources
    status := .pending }

/-- Interpret a decoded planner object (orchestrator.py lines 265-297): mode
clarification must carry at least one question; any other mode is plan mode
and must carry at least one plan item; otherwise the distinguished parse
failure is raised. -/
def interpretPlanData (defaultId : Nat → String) (data : PlanJson) :
    Except PlanParseError PlanParseOutcome :=
  let mode := data.mode.getD "plan"
  if mode = "clarification" then
    if data.clarifications.isEmpty then
      Except.error PlanParseError.emptyClarifications
    else Except.ok (PlanParseOutcome.clarifications data.clarifications)
  else
    let items := data.plan_items.enum.map
      (fun pair => buildPlanItem (defaultId pair.1) pair.2)
    if items.isEmpty then Except.error PlanParseError.emptyPlanItems
    else
      Except.ok (PlanParseOutcome.plan
        { understanding := data.understanding.getD ""
          clarifications := data.clarifications
          plan_items := items
          estimated_time_minutes := data.estimated_time_minutes.getD 30 })

/-- Parse the planner's response, instrumented with the number of tolerant
repair passes performed (orchestrator.py lines 221-297, _parse_plan_response):
extract the JSON candidate, try the strict decode, and only on its failure run
one repair-and-retry pass — repairJson models json_repair.repair_json, loads
models json.loads — failing with the distinguished parse error if that also
fails. -/
def parsePlanResponseT (loads : String → Option PlanJson)
    (repairJson : String → Option String) (defaultId : Nat → String)
    (content : String) : Except PlanParseError PlanParseOutcome × Nat :=
  match extractJsonStr content with
  | Except.error e => (Except.error e, 0)
  | Except.ok js =>
    match loads js with
    | some data => (interpretPlanData defaultId data, 0)
    | none =>
      match repairJson js with
      | some repaired =>
        match loads repaired with
        | some data => (interpretPlanData defaultId data, 1)
        | none => (Except.error PlanParseError.repairFailed, 1)
      | none => (Except.error PlanParseError.repairFailed, 1)

/-- Parse the planner's response (the uninstrumented view). -/
def parsePlanResponse (loads : String → Option PlanJson)
    (repairJson : String → Option String) (defaultId : Nat → String)
    (content : String) : Except PlanParseError PlanParseOutcome :=
  (parsePlanResponseT loads repairJson defaultId content).1

/-! ### Cancellation and the checkpoint loop (orchestrator.py lines 765-795) -/

/-- The orchestrator's cancellation-related state: the cooperative flag and
whether the periodic checkpoint task is alive. -/
structure OrchFlags where
  cancelled : Bool := false
  checkpointTaskActive : Bool := false
deriving DecidableEq, Repr

/-- Cancel the current workflow (orchestrator.py lines 765-768): set the
cooperative flag and stop the checkpoint task. It touches nothing else — in
particular no worker call is terminated. -/
def cancel (_st : OrchFlags) : OrchFlags :=
  { cancelled := true, checkpointTaskActive := false }

/-- Wakeup times at which the checkpoint loop starts a save (orchestrator.py
lines 775-789, checkpoint_loop): at each wakeup t the flag is consulted —
both as the while condition and right after the sleep — and the loop breaks
without saving once it reads true; fuel bounds the wakeups observed. The
cancelled argument gives the flag's value at each instant. -/
def checkpointSaveTimes (cancelled : Nat → Bool) : Nat → Nat → List Nat
  | 0, _ => []
  | fuel + 1, t =>
    if cancelled t then []
    else t :: checkpointSaveTimes cancelled fuel (t + 1)

/-- The phases whose work run_full_workflow starts, as a function of the
orchestrator flags (orchestrator.py lines 699-746): planning always runs; with
auto_confirm the research and synthesis phases follow. Translated faithfully:
the function body contains no read of the cancelled flag, because the source
contains none. -/
def workflowPhasesStarted (_flags : OrchFlags) (autoConfirm : Bool) :
    List ResearchPhase :=
  if autoConfirm then
    [ResearchPhase.planning, ResearchPhase.researching,
     ResearchPhase.synthesizing]
  else [ResearchPhase.planning]

/-! ### The bounded-concurrency fan-out (orchestrator.py lines 357-407)

run_research_phase creates asyncio.Semaphore(max_parallel_agents) and spawns
one task per pending item; each task runs "async with semaphore" around
_run_single_researcher, so an item reports running progress only while its
task holds a permit. The fan-out is modelled as a transition system: a task
waits, acquires a permit (only when one is free) to run, and releases it when
it finishes. -/

/-- Status of one spawned worker task. -/
inductive WorkerTaskStatus
  | waiting
  | running
  | done
deriving DecidableEq, Repr

/-- State of the fan-out pool: free semaphore permits plus each task's
status. -/
structure PoolState where
  permits : Nat
  workers : List WorkerTaskStatus
deriving DecidableEq, Repr

/-- Initial pool state: Semaphore(K) full, all N spawned tasks waiting at the
async-with (orchestrator.py lines 363-371). -/
def initPool (K N : Nat) : PoolState :=
  { permits := K, workers := List.replicate N .waiting }

/-- One scheduler step of the fan-out (orchestrator.py lines 390-407,
_run_researcher_with_semaphore): a waiting task may acquire a free permit and
start running its item; a running task may finish, releasing its permit. The
permit is held for the item's whole execution. -/
inductive PoolStep : PoolState → PoolState → Prop
  | acquire (st : PoolState) (i : Nat)
      (hw : st.workers.get? i = some .waiting) (hp : 0 < st.permits) :
      PoolStep st
        { permits := st.permits - 1, workers := st.workers.set i .running }
  | finish (st : PoolState) (i : Nat)
      (hw : st.workers.get? i = some .running) :
      PoolStep st
        { permits := st.permits + 1, workers := st.workers.set i .done }

/-- Reachability of pool states from the initial state. -/
def PoolReachable (K N : Nat) (st : PoolState) : Prop :=
  Relation.ReflTransGen PoolStep (initPool K N) st

/-- Number of tasks currently reporting running progress status. -/
def runningCount (st : PoolState) : Nat :=
  st.workers.countP (fun w => w = .running)

/-! ## Concrete data used by witnesses -/

/-- Session row used by the C1 witness: completed, with a final report, and
with a stale checkpoint claiming the earlier Researching phase. -/
def c1Row : ResearchSession :=
  { session_id := "00000000-0000-0000-0000-000000000000"
    user_query := "q"
    phase := .completed
    final_report := some "the report"
    created_at := 1
    updated_at := 2 }

/-- Store used by the C1 witness. -/
def c1Store : SessionStore :=
  { sessions := [c1Row]
    checkpoints :=
      [{ rowid := 1
         session_id := "00000000-0000-0000-0000-000000000000"
         checkpoint :=
           { session_id := "00000000-0000-0000-0000-000000000000"
             phase := .researching }
         created_at := 1 }] }

/-- Session row used by the C2 witness: non-terminal (Synthesizing), no final
report, with a checkpoint recording the earlier Researching phase. -/
def c2Row : ResearchSession :=
  { session_id := "11111111-0000-0000-0000-000000000000"
    user_query := "q2"
    phase := .synthesizing
    created_at := 1
    updated_at := 2 }

/-- Checkpoint used by the C2 witness. -/
def c2Checkpoint : Checkpoint :=
  { session_id := "11111111-0000-0000-0000-000000000000"
    phase := .researching
    metadata_user_query := "q2" }

/-- Store used by the C2 witness. -/
def c2Store : SessionStore :=
  { sessions := [c2Row]
    checkpoints :=
      [{ rowid := 1
         session_id := "11111111-0000-0000-0000-000000000000"
         checkpoint := c2Checkpoint
         created_at := 1 }] }

/-- First plan item used by the C3 witness; its worker succeeds. -/
def c3Item1 : PlanItem :=
  { id := "item-1", topic := "T1", description := "D1" }

/-- Second plan item used by the C3 witness; its worker raises. -/
def c3Item2 : PlanItem :=
  { id := "item-2", topic := "T2", description := "D2" }

/-- Plan used by the C3 witness. -/
def c3Plan : ResearchPlan :=
  { understanding := "u", plan_items := [c3Item1, c3Item2] }

/-- Session used by the C3 witness. -/
def c3Session : ResearchSession :=
  { session_id := "sess-c3", user_query := "q", plan := some c3Plan }

/-- Worker outcomes used by the C3 witness: the second item's worker raises,
the first returns successfully. -/
def c3Outcomes : PlanItem → ExecOutcome := fun it =>
  if it.id = "item-2" then ExecOutcome.raised "boom"
  else ExecOutcome.finished { success := true, content := "findings text" }

/-- Plan item used by the C7 witness. -/
def c7Item : PlanItem :=
  { id := "item-7", topic := "T7", description := "D7" }

/-- Session used by the C7 witness. -/
def c7Session : ResearchSession :=
  { session_id := "sess-c7", user_query := "q7" }

/-- Successful execution result used by the C7 witness. -/
def c7Exec : ExecutionResult :=
  { success := true, content := "done" }

/-- Pool state reached by the C8 witness after one acquire step. -/
def c8State : PoolState :=
  { permits := 0, workers := [.running, .waiting] }

/-- Cancellation-flag schedule used by the C9 witness: cancel lands at
instant 3. -/
def c9Flag : Nat → Bool := fun t => decide (3 ≤ t)

/-- Plan item used by the C9 witness. -/
def c9Item : PlanItem :=
  { id := "item-9", topic := "T9", description := "D9" }

/-- Session used by the C9 witness. -/
def c9Session : ResearchSession :=
  { session_id := "sess-c9", user_query := "q9" }

/-- Empty bus used by the C6 witness; the handler is registered nowhere. -/
def c6Bus : EventBusState := {}

/-- Arbitrary later bus state used by the C6 witness's idempotence part. -/
def c6AltBus : EventBusState :=
  { global_handlers := [(.error, 5)]
    session_handlers := [("other", .heartbeat, 7)] }

/-- Event used by the C6 witness. -/
def c6Event : BusEvent :=
  { event_type := .heartbeat, session_id := "sess-c6" }

/-! ## Shared lemmas -/

/-- The spec's strictly-more-advanced order coincides with the code's
PHASE_ORDER comparison. -/
theorem specMoreAdvanced_iff (a b : ResearchPhase) :
    specMoreAdvanced a b = true ↔ PHASE_ORDER b < PHASE_ORDER a := by
  cases a <;> cases b <;> simp [specMoreAdvanced, specPhaseRank, PHASE_ORDER]

/-- A safe handler call always returns normally. -/
theorem safeCall_ok (beh : HandlerBeh) (h : Nat) (ev : BusEvent) :
    safeCall beh h ev = Except.ok () := by
  unfold safeCall
  cases beh h ev <;> rfl

/-- The handler-invocation loop of publish returns normally and invokes every
listed handler, in order. -/
theorem invokeHandlers_ok (beh : HandlerBeh) (ev : BusEvent) (l : List Nat)
    (acc : List Nat) :
    invokeHandlers beh ev l acc = Except.ok (acc ++ l) := by
  induction l generalizing acc with
  | nil => simp [invokeHandlers]
  | cons h t ih =>
    rw [invokeHandlers, safeCall_ok]
    rw [ih]
    simp

/-- The capped percent step never exceeds 90. -/
theorem percentAfter_le (n : Nat) : percentAfter n ≤ 90 := by
  cases n with
  | zero => norm_num [percentAfter]
  | succ m =>
    show stepMsgPercent (percentAfter m) ≤ 90
    exact min_le_right _ _

/-- The capped percent step never decreases the percent. -/
theorem percentAfter_mono (n : Nat) : percentAfter n ≤ percentAfter (n + 1) := by
  show percentAfter n ≤ stepMsgPercent (percentAfter n)
  refine le_min ?_ (percentAfter_le n)
  linarith

/-- After replace-or-insert, looking up the record's own key yields it. -/
theorem find?_map_update (l : List (String × AgentProgress)) (key : String)
    (p : AgentProgress)
    (h : (l.find? (fun kv => kv.1 = key)).isSome = true) :
    ((l.map (fun kv => if kv.1 = key then (kv.1, p) else kv)).find?
      (fun kv => kv.1 = key)).map (fun kv => kv.2) = some p := by
  induction l with
  | nil => simp at h
  | cons kv t ih =>
    by_cases hk : kv.1 = key
    · simp [List.find?, hk]
    · simp only [List.map_cons, if_neg hk, List.find?,
        decide_eq_false hk, Bool.false_eq_true, if_false]
      rw [List.find?] at h
      simp only [decide_eq_false hk, Bool.false_eq_true, if_false] at h
      exact ih h

/-- Appending a fresh keyed record makes its key findable. -/
theorem find?_append_fresh (l : List (String × AgentProgress)) (key : String)
    (p : AgentProgress)
    (h : l.find? (fun kv => kv.1 = key) = none) :
    (((l ++ [(key, p)]).find? (fun kv => kv.1 = key)).map
      (fun kv => kv.2)) = some p := by
  rw [List.find?_append, h]
  simp [List.find?]

/-- Updating a session's progress record and then looking its agent id up
returns exactly the stored record. -/
theorem lookup_progress_update (s : ResearchSession) (p : AgentProgress) :
    (s.update_agent_progress p).lookup_progress p.agent_id = some p := by
  unfold ResearchSession.update_agent_progress ResearchSession.lookup_progress
  by_cases h : (s.agent_progress.find? (fun kv => kv.1 = p.agent_id)).isSome
  · simp only [h, if_true]
    exact find?_map_update s.agent_progress p.agent_id p h
  · simp only [h, Bool.false_eq_true, if_false]
    exact find?_append_fresh s.agent_progress p.agent_id p
      (Option.not_isSome_iff_eq_none.mp (by simpa using h))

/-- The result an item contributes carries that item's id, whatever the
outcome. -/
theorem producedResult_plan_item_id (loads : String → Option ResearcherJson)
    (item : PlanItem) (o : ExecOutcome) (e : ℚ) :
    (producedResult loads item o e).plan_item_id = item.id := by
  unfold producedResult
  cases o with
  | finished r =>
    cases hr : r.success with
    | true =>
      simp only [hr, if_true]
      unfold parseResearcherResponse
      cases hx : extractBraces r.content with
      | none => simp [hx]
      | some js =>
        simp only [hx]
        cases hl : loads js <;> simp [hl]
    | false => simp [hr, researchFailedResult]
  | raised m => rfl

/-- The researcher run returns the produced result and appends exactly it to
the session's result list, leaving prior results untouched. -/
theorem runSingleResearcher_spec (loads : String → Option ResearcherJson)
    (s : ResearchSession) (item : PlanItem) (o : ExecOutcome) (n : Nat)
    (e : ℚ) :
    (runSingleResearcher loads s item o n e).2 = producedResult loads item o e ∧
    (runSingleResearcher loads s item o n e).1.agent_results =
      s.agent_results ++ [producedResult loads item o e] := by
  unfold runSingleResearcher producedResult runResearcherFailure
  cases o with
  | finished r =>
    cases hr : r.success with
    | true =>
      simp only [hr, if_true]
      constructor <;> first | rfl | trivial
    | false =>
      simp only [hr, Bool.false_eq_true, if_false]
      constructor <;> first | rfl | trivial
  | raised m => constructor <;> rfl

/-- The fan-in fold appends one produced result per item, in item order, to
both the session's stored results and the returned batch. -/
theorem research_fold_results (loads : String → Option ResearcherJson)
    (outcomes : PlanItem → ExecOutcome) (nmsgs : PlanItem → Nat)
    (elapsed : PlanItem → ℚ) (pending : List PlanItem) :
    ∀ (s : ResearchSession) (acc : List AgentResult),
      ((pending.foldl (researchFoldStep loads outcomes nmsgs elapsed)
          (s, acc)).1.agent_results =
        s.agent_results ++ pending.map
          (fun it => producedResult loads it (outcomes it) (elapsed it))) ∧
      ((pending.foldl (researchFoldStep loads outcomes nmsgs elapsed)
          (s, acc)).2 =
        acc ++ pending.map
          (fun it => producedResult loads it (outcomes it) (elapsed it))) := by
  induction pending with
  | nil => intro s acc; simp
  | cons item rest ih =>
    intro s acc
    have hstep := runSingleResearcher_spec loads s item (outcomes item)
      (nmsgs item) (elapsed item)
    constructor
    · rw [List.foldl_cons]
      simp only [researchFoldStep]
      rw [(ih _ _).1, hstep.2]
      simp
    · rw [List.foldl_cons]
      simp only [researchFoldStep]
      rw [(ih _ _).2, hstep.1]
      simp

/-- Appending a result leaves the progress map untouched. -/
theorem lookup_progress_add (s : ResearchSession) (r : AgentResult)
    (key : String) :
    (s.add_agent_result r).lookup_progress key = s.lookup_progress key := rfl

/-- Replacing the plan leaves the progress map untouched. -/
theorem lookup_progress_plan_set (s : ResearchSession)
    (pl : Option ResearchPlan) (key : String) :
    ResearchSession.lookup_progress { s with plan := pl } key =
      s.lookup_progress key := rfl

/-- Keyed variant of the progress-update lookup lemma. -/
theorem lookup_progress_update_key (s : ResearchSession) (p : AgentProgress)
    (key : String) (hk : p.agent_id = key) :
    (s.update_agent_progress p).lookup_progress key = some p :=
  hk ▸ lookup_progress_update s p

/-- On a successful outcome the stored progress record of the item's agent is
terminal: status completed, percent 100. -/
theorem runSingleResearcher_progress_success
    (loads : String → Option ResearcherJson) (s : ResearchSession)
    (item : PlanItem) (r : ExecutionResult) (nmsgs : Nat) (elapsed : ℚ)
    (hs : r.success = true) :
    (runSingleResearcher loads s item (.finished r) nmsgs
        elapsed).1.lookup_progress ("researcher-" ++ item.id) =
      some
        { agent_id := "researcher-" ++ item.id
          plan_item_id := item.id
          topic := item.topic
          status := AgentStatus.completed
          progress_percent := 100
          started_at := some 0
          completed_at := some 0 } := by
  unfold runSingleResearcher
  simp only [hs, if_true]
  rw [lookup_progress_add, lookup_progress_plan_set]
  exact lookup_progress_update_key _ _ _ rfl

/-- On a raising outcome the stored progress record of the item's agent is
terminal failed and keeps the capped percent the callbacks reached. -/
theorem runSingleResearcher_progress_raised
    (loads : String → Option ResearcherJson) (s : ResearchSession)
    (item : PlanItem) (msg : String) (nmsgs : Nat) (elapsed : ℚ) :
    (runSingleResearcher loads s item (.raised msg) nmsgs
        elapsed).1.lookup_progress ("researcher-" ++ item.id) =
      some
        { agent_id := "researcher-" ++ item.id
          plan_item_id := item.id
          topic := item.topic
          status := AgentStatus.failed
          progress_percent := percentAfter nmsgs
          error := some msg
          started_at := some 0
          completed_at := some 0 } := by
  unfold runSingleResearcher runResearcherFailure
  rw [lookup_progress_add, lookup_progress_plan_set]
  exact lookup_progress_update_key _ _ _ rfl

/-- A string with a non-empty left part stays non-empty after append. -/
theorem append_ne_empty_left (s t : String) (h : s.length ≠ 0) :
    s ++ t ≠ "" := by
  intro hc
  have hlen := congrArg String.length hc
  rw [String.length_append] at hlen
  simp only [String.length_empty] at hlen
  omega

/-- The failure path's degraded result: confidence 0 and non-empty
error-derived findings. -/
theorem producedResult_failure (loads : String → Option ResearcherJson)
    (item : PlanItem) (o : ExecOutcome) (elapsed : ℚ)
    (hf : isFailureOutcome o = true) :
    (producedResult loads item o elapsed).confidence = 0 ∧
    (producedResult loads item o elapsed).findings ≠ "" := by
  cases o with
  | finished r =>
    have hr : r.success = false := by
      simpa [isFailureOutcome] using hf
    unfold producedResult
    simp only [hr, Bool.false_eq_true, if_false]
    refine ⟨rfl, ?_⟩
    exact append_ne_empty_left _ _ (by decide)
  | raised m =>
    refine ⟨rfl, ?_⟩
    exact append_ne_empty_left _ _ (by decide)

/-- With ids unique among a list of items, filtering the list for a member's
id yields exactly that member. -/
theorem filter_id_eq_of_nodup (l : List PlanItem) (a : PlanItem)
    (hnd : (l.map (fun it => it.id)).Nodup) (ha : a ∈ l) :
    l.filter (fun it => it.id = a.id) = [a] := by
  induction l with
  | nil => cases ha
  | cons x t ih =>
    rw [List.map_cons, List.nodup_cons] at hnd
    rcases List.mem_cons.mp ha with hax | hat
    · subst hax
      rw [List.filter_cons]
      simp only [decide_eq_true_eq, decide_True, if_true]
      have : t.filter (fun it => it.id = a.id) = [] := by
        rw [List.filter_eq_nil_iff]
        intro it hit hcontra
        exact hnd.1 (by
          simp only [decide_eq_true_eq] at hcontra
          rw [← hcontra]
          exact List.mem_map_of_mem _ hit)
      simp [this]
    · have hne : x.id ≠ a.id := by
        intro hcontra
        exact hnd.1 (hcontra ▸ List.mem_map_of_mem _ hat)
      rw [List.filter_cons]
      simp only [decide_eq_false hne, Bool.false_eq_true, if_false]
      exact ih hnd.2 hat

/-- Counting over a replicated list of a non-matching element gives zero. -/
theorem countP_replicate_waiting (n : Nat) :
    (List.replicate n WorkerTaskStatus.waiting).countP
      (fun w => w = .running) = 0 := by
  induction n with
  | zero => rfl
  | succ m ih => simp [List.replicate, List.countP_cons, ih]

/-- Updating one known entry of a list changes its count by the difference of
the two entries' predicate values. -/
theorem countP_set_balance (l : List WorkerTaskStatus) (i : Nat)
    (a b : WorkerTaskStatus) (p : WorkerTaskStatus → Bool)
    (h : l.get? i = some b) :
    (l.set i a).countP p + (if p b then 1 else 0) =
      l.countP p + (if p a then 1 else 0) := by
  induction l generalizing i with
  | nil => simp at h
  | cons x t ih =>
    cases i with
    | zero =>
      simp only [List.get?] at h
      have hxb : x = b := Option.some.inj h
      subst hxb
      simp only [List.set, List.countP_cons]
      by_cases hpa : p a <;> by_cases hpx : p x <;> simp [hpa, hpx]
    | succ j =>
      simp only [List.get?] at h
      have hrec := ih j h
      simp only [List.set, List.countP_cons]
      by_cases hpx : p x <;> simp [hpx] <;> omega

/-- One pool step preserves the semaphore balance: free permits plus running
tasks stay equal to the semaphore's size. -/
theorem pool_step_invariant (K : Nat) (s1 s2 : PoolState)
    (hstep : PoolStep s1 s2) (h1 : s1.permits + runningCount s1 = K) :
    s2.permits + runningCount s2 = K := by
  cases hstep with
  | acquire i hw hp =>
    have hc := countP_set_balance s1.workers i .running .waiting
      (fun w => w = .running) hw
    simp only [runningCount] at h1 ⊢
    simp at hc
    omega
  | finish i hw =>
    have hc := countP_set_balance s1.workers i .done .running
      (fun w => w = .running) hw
    simp only [runningCount] at h1 ⊢
    simp at hc
    omega

/-- Semaphore invariant of the fan-out pool: free permits plus running tasks
always equal the semaphore's size. -/
theorem pool_invariant (K N : Nat) (st : PoolState)
    (h : PoolReachable K N st) : st.permits + runningCount st = K := by
  induction h with
  | refl =>
    simp [initPool, runningCount, countP_replicate_waiting]
  | tail hsteps hstep ih =>
    exact pool_step_invariant K _ _ hstep ih

/-- Filtering twice with the same predicate equals filtering once. -/
theorem filter_self_idem (l : List α) (p : α → Bool) :
    (l.filter p).filter p = l.filter p := by
  induction l with
  | nil => rfl
  | cons x t ih => by_cases hx : p x <;> simp [List.filter_cons, hx, ih]

/-- Every event type is enumerated by EventType.all. -/
theorem EventType.mem_all (t : EventType) : t ∈ EventType.all := by
  cases t <;> simp [EventType.all]

/-- The unsubscribe function subscribe returns is the discard closure of the
registration. -/
theorem subscribe_snd (bus : EventBusState) (t : EventType) (h : Nat)
    (sid : Option String) : (subscribe bus t h sid).2 = unsubFun t h sid := by
  cases sid <;> rfl

/-- The discard closure is idempotent on any bus state. -/
theorem unsubFun_idem (t : EventType) (h : Nat) (sid : Option String)
    (b : EventBusState) :
    unsubFun t h sid (unsubFun t h sid b) = unsubFun t h sid b := by
  cases sid <;> simp [unsubFun, filter_self_idem]

/-- A handler registered nowhere is never matched by publish. -/
theorem handlerFree_not_matched (bus : EventBusState) (h : Nat)
    (ev : BusEvent) (hf : handlerFree bus h) :
    h ∉ matchedHandlers bus ev := by
  intro hmem
  unfold matchedHandlers at hmem
  rcases List.mem_append.mp hmem with hg | hs
  · obtain ⟨p, hp, hph⟩ := List.mem_map.mp hg
    exact hf.1 p (List.mem_filter.mp hp).1 hph
  · obtain ⟨x, hx, hxh⟩ := List.mem_map.mp hs
    exact hf.2 x (List.mem_filter.mp hx).1 hxh

/-- Membership after a set-insert into the global table. -/
theorem mem_addGlobalHandler (l : List (EventType × Nat)) (t : EventType)
    (h : Nat) (x : EventType × Nat) (hx : x ∈ addGlobalHandler l t h) :
    x ∈ l ∨ x = (t, h) := by
  unfold addGlobalHandler at hx
  by_cases hm : (t, h) ∈ l
  · rw [if_pos hm] at hx
    exact Or.inl hx
  · rw [if_neg hm] at hx
    rcases List.mem_append.mp hx with h1 | h2
    · exact Or.inl h1
    · simp only [List.mem_singleton] at h2
      exact Or.inr h2

/-- Membership after a set-insert into the session table. -/
theorem mem_addSessionHandler (l : List (String × EventType × Nat))
    (sid : String) (t : EventType) (h : Nat) (x : String × EventType × Nat)
    (hx : x ∈ addSessionHandler l sid t h) : x ∈ l ∨ x = (sid, t, h) := by
  unfold addSessionHandler at hx
  by_cases hm : (sid, t, h) ∈ l
  · rw [if_pos hm] at hx
    exact Or.inl hx
  · rw [if_neg hm] at hx
    rcases List.mem_append.mp hx with h1 | h2
    · exact Or.inl h1
    · simp only [List.mem_singleton] at h2
      exact Or.inr h2

/-- Unsubscribing the sole registration of a handler leaves the bus free of
it. -/
theorem handlerFree_after_unsub (bus : EventBusState) (t : EventType)
    (h : Nat) (sid : Option String) (hf : handlerFree bus h) :
    handlerFree (unsubFun t h sid (subscribe bus t h sid).1) h := by
  cases sid with
  | none =>
    refine ⟨fun p hp => ?_, fun x hx => ?_⟩
    · simp only [unsubFun, subscribe] at hp
      have hsplit := List.mem_filter.mp hp
      rcases mem_addGlobalHandler bus.global_handlers t h p hsplit.1 with
        hin | heq
      · exact hf.1 p hin
      · exfalso
        have hne := hsplit.2
        simp [heq] at hne
    · simp only [unsubFun, subscribe] at hx
      exact hf.2 x hx
  | some s =>
    refine ⟨fun p hp => ?_, fun x hx => ?_⟩
    · simp only [unsubFun, subscribe] at hp
      exact hf.1 p hp
    · simp only [unsubFun, subscribe] at hx
      have hsplit := List.mem_filter.mp hx
      rcases mem_addSessionHandler bus.session_handlers s t h x hsplit.1 with
        hin | heq
      · exact hf.2 x hin
      · exfalso
        have hne := hsplit.2
        simp [heq] at hne

/-- The unsubscribers subscribe_all collects are exactly the discard closures
of each event type, in order. -/
theorem subAll_fold_units (h : Nat) (sid : Option String)
    (ts : List EventType) :
    ∀ (bus : EventBusState) (us : List (EventBusState → EventBusState)),
      (ts.foldl (subscribeAllStep h sid) (bus, us)).2 =
        us ++ ts.map (fun t => unsubFun t h sid) := by
  induction ts with
  | nil => intro bus us; simp
  | cons t rest ih =>
    intro bus us
    rw [List.foldl_cons, ih]
    simp only [subscribeAllStep]
    rw [subscribe_snd]
    simp

/-- Subscribing a handler to a list of types, globally, only adds
registrations of that handler to the global table and leaves the session
table untouched. -/
theorem subAll_fold_state_none (h : Nat) (ts : List EventType) :
    ∀ (bus : EventBusState) (us : List (EventBusState → EventBusState)),
      (∀ x ∈ (ts.foldl (subscribeAllStep h none) (bus, us)).1.global_handlers,
        x ∈ bus.global_handlers ∨ x.2 = h) ∧
      (ts.foldl (subscribeAllStep h none) (bus, us)).1.session_handlers =
        bus.session_handlers := by
  induction ts with
  | nil => intro bus us; exact ⟨fun x hx => Or.inl hx, rfl⟩
  | cons t rest ih =>
    intro bus us
    rw [List.foldl_cons]
    refine ⟨fun x hx => ?_, ?_⟩
    · rcases (ih _ _).1 x hx with hin | hh
      · rcases mem_addGlobalHandler bus.global_handlers t h x hin with h1 | h2
        · exact Or.inl h1
        · exact Or.inr (by rw [h2])
      · exact Or.inr hh
    · rw [(ih _ _).2]
      rfl

/-- Subscribing a handler to a list of types, session-scoped, only adds
registrations of that handler to the session table and leaves the global
table untouched. -/
theorem subAll_fold_state_some (h : Nat) (s : String) (ts : List EventType) :
    ∀ (bus : EventBusState) (us : List (EventBusState → EventBusState)),
      (∀ x ∈ (ts.foldl (subscribeAllStep h (some s))
          (bus, us)).1.session_handlers,
        x ∈ bus.session_handlers ∨ (x.1 = s ∧ x.2.2 = h)) ∧
      (ts.foldl (subscribeAllStep h (some s)) (bus, us)).1.global_handlers =
        bus.global_handlers := by
  induction ts with
  | nil => intro bus us; exact ⟨fun x hx => Or.inl hx, rfl⟩
  | cons t rest ih =>
    intro bus us
    rw [List.foldl_cons]
    refine ⟨fun x hx => ?_, ?_⟩
    · rcases (ih _ _).1 x hx with hin | hh
      · rcases mem_addSessionHandler bus.session_handlers s t h x hin with
          h1 | h2
        · exact Or.inl h1
        · exact Or.inr (by rw [h2]; exact ⟨rfl, rfl⟩)
      · exact Or.inr hh
    · rw [(ih _ _).2]
      rfl

/-- Running the chain of global discard closures for a list of types equals a
single filter dropping that handler's registrations of those types. -/
theorem chain_unsub_none (h : Nat) (ts : List EventType) :
    ∀ b : EventBusState,
      (ts.map (fun t => unsubFun t h none)).foldl (fun x u => u x) b =
        { b with global_handlers :=
                  b.global_handlers.filter
                    (fun x => decide (∀ t ∈ ts, x ≠ (t, h))) } := by
  induction ts with
  | nil =>
    intro b
    have hp : (fun (x : EventType × Nat) =>
        decide (∀ t ∈ ([] : List EventType), x ≠ (t, h))) = fun _ => true := by
      funext x
      simp
    rw [List.map_nil, List.foldl_nil, hp, List.filter_true]
  | cons t rest ih =>
    intro b
    rw [List.map_cons, List.foldl_cons, ih]
    simp only [unsubFun]
    rw [List.filter_filter]
    congr 1
    apply List.filter_congr
    intro x _
    by_cases h1 : x = (t, h) <;>
      by_cases h2 : ∀ u ∈ rest, x ≠ (u, h) <;>
        simp [h1, h2, List.forall_mem_cons]

/-- Running the chain of session discard closures for a list of types equals a
single filter dropping that handler's session registrations of those types. -/
theorem chain_unsub_some (h : Nat) (s : String) (ts : List EventType) :
    ∀ b : EventBusState,
      (ts.map (fun t => unsubFun t h (some s))).foldl (fun x u => u x) b =
        { b with session_handlers :=
                  b.session_handlers.filter
                    (fun x => decide (∀ t ∈ ts, x ≠ (s, t, h))) } := by
  induction ts with
  | nil =>
    intro b
    have hp : (fun (x : String × EventType × Nat) =>
        decide (∀ t ∈ ([] : List EventType), x ≠ (s, t, h))) =
        fun _ => true := by
      funext x
      simp
    rw [List.map_nil, List.foldl_nil, hp, List.filter_true]
  | cons t rest ih =>
    intro b
    rw [List.map_cons, List.foldl_cons, ih]
    simp only [unsubFun]
    rw [List.filter_filter]
    congr 1
    apply List.filter_congr
    intro x _
    by_cases h1 : x = (s, t, h) <;>
      by_cases h2 : ∀ u ∈ rest, x ≠ (s, u, h) <;>
        simp [h1, h2, List.forall_mem_cons]

/-- A bus whose global table was filtered is free of a handler when the
filter keeps no registration of it and the session table has none. -/
theorem handlerFree_filter_global (S : EventBusState) (h : Nat)
    (P : EventType × Nat → Bool)
    (hg : ∀ p ∈ S.global_handlers, P p = true → p.2 ≠ h)
    (hs : ∀ x ∈ S.session_handlers, x.2.2 ≠ h) :
    handlerFree { S with global_handlers := S.global_handlers.filter P } h := by
  refine ⟨fun p hp => ?_, fun x hx => ?_⟩
  · have hsplit := List.mem_filter.mp hp
    exact hg p hsplit.1 hsplit.2
  · exact hs x hx

/-- A bus whose session table was filtered is free of a handler when the
filter keeps no registration of it and the global table has none. -/
theorem handlerFree_filter_session (S : EventBusState) (h : Nat)
    (P : String × EventType × Nat → Bool)
    (hs : ∀ x ∈ S.session_handlers, P x = true → x.2.2 ≠ h)
    (hg : ∀ p ∈ S.global_handlers, p.2 ≠ h) :
    handlerFree { S with session_handlers := S.session_handlers.filter P }
      h := by
  refine ⟨fun p hp => ?_, fun x hx => ?_⟩
  · exact hg p hp
  · have hsplit := List.mem_filter.mp hx
    exact hs x hsplit.1 hsplit.2

/-- Global-subscribe-all state: only registrations of the handler are added
to the global table, and the session table is untouched. -/
theorem subscribeAll_state_none (h : Nat) (bus : EventBusState) :
    (∀ x ∈ (subscribeAll bus h none).1.global_handlers,
      x ∈ bus.global_handlers ∨ x.2 = h) ∧
    (subscribeAll bus h none).1.session_handlers = bus.session_handlers :=
  subAll_fold_state_none h EventType.all bus []

/-- Session-subscribe-all state: only session registrations of the handler
are added, and the global table is untouched. -/
theorem subscribeAll_state_some (h : Nat) (s : String) (bus : EventBusState) :
    (∀ x ∈ (subscribeAll bus h (some s)).1.session_handlers,
      x ∈ bus.session_handlers ∨ (x.1 = s ∧ x.2.2 = h)) ∧
    (subscribeAll bus h (some s)).1.global_handlers = bus.global_handlers :=
  subAll_fold_state_some h s EventType.all bus []

/-- A save time recorded by the checkpoint loop is always an instant at which
the cancellation flag still read false. -/
theorem mem_checkpointSaveTimes (cancelledFlag : Nat → Bool) (fuel : Nat) :
    ∀ t0 s, s ∈ checkpointSaveTimes cancelledFlag fuel t0 →
      cancelledFlag s = false := by
  induction fuel with
  | zero =>
    intro t0 s hs
    simp [checkpointSaveTimes] at hs
  | succ m ih =>
    intro t0 s hs
    rw [checkpointSaveTimes] at hs
    by_cases hc : cancelledFlag t0
    · rw [if_pos hc] at hs
      simp at hs
    · rw [if_neg hc] at hs
      rcases List.mem_cons.mp hs with hst | hrest
    -- fallthrough handled below
      · rw [hst]
        exact Bool.eq_false_iff.mpr hc
      · exact ih (t0 + 1) s hrest

/-! ## Claims -/

/-- C1: for every stored session whose durable row has phase Completed,
Failed, or Cancelled, or whose row carries a non-empty final report,
restore_from_checkpoint on any id or prefix resolving to that row returns the
durable row verbatim, for every store — in particular whatever checkpoints
exist for the session, even one recording an earlier phase, are ignored. -/
theorem C1_terminal_row_is_authoritative (store : SessionStore) (idp : String)
    (s : ResearchSession)
    (hres : resolveSessionId store idp = some s)
    (hterm : s.phase = .completed ∨ s.phase = .failed ∨ s.phase = .cancelled ∨
      hasFinalReport s.final_report = true) :
    restore_from_checkpoint store idp = some s := by
  unfold restore_from_checkpoint
  rw [hres]
  simp only [if_pos hterm]

/-- Witness for C1: the completed row wins over its stale checkpoint. -/
theorem C1_witness :
    restore_from_checkpoint c1Store "00000000-0000-0000-0000-000000000000" =
      some c1Row :=
  C1_terminal_row_is_authoritative c1Store
    "00000000-0000-0000-0000-000000000000" c1Row (by decide) (by decide)

/-- C2: for every stored session whose durable row is non-terminal and has no
non-empty final report, restore_from_checkpoint reconstructs the session from
the most recent checkpoint when one exists, overlaying the row's final-report
and error fields, and substitutes the row's phase for the checkpoint's phase
exactly when the row's phase is strictly more advanced under the spec's fixed
total order; with no checkpoint it returns the durable row unchanged. -/
theorem C2_nonterminal_row_reconciles (store : SessionStore) (idp : String)
    (s : ResearchSession)
    (hres : resolveSessionId store idp = some s)
    (hnt : ¬(s.phase = .completed ∨ s.phase = .failed ∨ s.phase = .cancelled ∨
      hasFinalReport s.final_report = true)) :
    (∀ cp, get_latest_checkpoint store s.session_id = some cp →
      restore_from_checkpoint store idp = some
        { ResearchSession.from_checkpoint cp with
            final_report := s.final_report
            error := s.error
            phase :=
              if specMoreAdvanced s.phase cp.phase then s.phase
              else cp.phase }) ∧
    (get_latest_checkpoint store s.session_id = none →
      restore_from_checkpoint store idp = some s) := by
  constructor
  · intro cp hcp
    unfold restore_from_checkpoint
    rw [hres]
    simp only [if_neg hnt, hcp]
    by_cases hadv : PHASE_ORDER cp.phase < PHASE_ORDER s.phase
    · have hb : specMoreAdvanced s.phase cp.phase = true :=
        (specMoreAdvanced_iff s.phase cp.phase).mpr hadv
      rw [if_pos hadv, hb]
      simp
    · have hb : specMoreAdvanced s.phase cp.phase = false := by
        rw [Bool.eq_false_iff]
        intro htrue
        exact hadv ((specMoreAdvanced_iff s.phase cp.phase).mp htrue)
      rw [if_neg hadv, hb]
      simp [ResearchSession.from_checkpoint]
  · intro hnone
    unfold restore_from_checkpoint
    rw [hres]
    simp only [if_neg hnt, hnone]

/-- Witness for C2: the reconstructed session takes the row's more advanced
Synthesizing phase over the checkpoint's Researching. -/
theorem C2_witness :
    restore_from_checkpoint c2Store "11111111-0000-0000-0000-000000000000" =
      some
        { ResearchSession.from_checkpoint c2Checkpoint with
            final_report := c2Row.final_report
            error := c2Row.error
            phase :=
              if specMoreAdvanced c2Row.phase c2Checkpoint.phase then
                c2Row.phase
              else c2Checkpoint.phase } :=
  (C2_nonterminal_row_reconciles c2Store
    "11111111-0000-0000-0000-000000000000" c2Row (by decide) (by decide)).1
    c2Checkpoint (by decide)

/-- C10: delete_session removes the session row and every checkpoint row for
that id in one call, returns true exactly when a session row with the id
existed, and afterwards get_session, get_latest_checkpoint and
list_checkpoints for the id all report nothing. -/
theorem C10_delete_session_removes_row_and_checkpoints (store : SessionStore)
    (sid : String) :
    ((delete_session store sid).2 = true ↔ (get_session store sid).isSome) ∧
    get_session (delete_session store sid).1 sid = none ∧
    get_latest_checkpoint (delete_session store sid).1 sid = none ∧
    list_checkpoints (delete_session store sid).1 sid = [] := by
  have hcpnil : (List.filter (fun r => decide (r.session_id = sid))
      (List.filter (fun r => decide (r.session_id ≠ sid))
        store.checkpoints)) = [] := by
    rw [List.filter_eq_nil_iff]
    intro r hr
    have hmem := List.mem_filter.mp hr
    simp only [decide_eq_true_eq] at hmem ⊢
    exact hmem.2
  refine ⟨?_, ?_, ?_, ?_⟩
  · simp only [delete_session, get_session, decide_eq_true_eq]
    rw [List.find?_isSome]
    constructor
    · intro hpos
      cases hfe : store.sessions.filter (fun s => decide (s.session_id = sid)) with
      | nil => rw [hfe] at hpos; simp at hpos
      | cons x xs =>
        have hx : x ∈ store.sessions.filter
            (fun s => decide (s.session_id = sid)) := by
          rw [hfe]
          exact List.mem_cons_self x xs
        have hm := List.mem_filter.mp hx
        exact ⟨x, hm.1, hm.2⟩
    · rintro ⟨x, hxmem, hxp⟩
      exact List.length_pos_of_mem (List.mem_filter.mpr ⟨hxmem, hxp⟩)
  · simp only [delete_session, get_session]
    rw [List.find?_eq_none]
    intro x hx
    have hm := List.mem_filter.mp hx
    simp only [decide_eq_true_eq] at hm ⊢
    exact hm.2
  · simp only [delete_session, get_latest_checkpoint, hcpnil]
    rfl
  · simp only [delete_session, list_checkpoints, hcpnil]
    rfl

/-- C4: publish invokes every matched handler with the event and returns
normally, whatever the handlers' behaviour: a raising handler is silenced by
the per-handler safe call, so it neither prevents any sibling's invocation nor
lets the exception reach the publisher. -/
theorem C4_publish_isolates_handler_exceptions (bus : EventBusState)
    (beh : HandlerBeh) (ev : BusEvent) :
    publish bus beh ev =
      Except.ok (matchedHandlers bus ev, enqueueSessionEvent bus ev) := by
  unfold publish
  rw [invokeHandlers_ok]
  simp

/-- C3: when a plan item's worker fails — the executor reports
success=false or the per-item code raises — the research phase still returns
normally with one result per pending item, and the stored results contain
exactly one entry for the failed item's id: the degraded result with
confidence 0 and non-empty error-derived findings. Sibling items each keep
their own produced result. -/
theorem C3_failed_worker_is_isolated (loads : String → Option ResearcherJson)
    (session : ResearchSession) (plan : ResearchPlan)
    (outcomes : PlanItem → ExecOutcome) (nmsgs : PlanItem → Nat)
    (elapsed : PlanItem → ℚ) (item : PlanItem)
    (hplan : session.plan = some plan)
    (hmem : item ∈ plan.get_pending_items)
    (hfail : isFailureOutcome (outcomes item) = true)
    (hnodup : (plan.get_pending_items.map (fun it => it.id)).Nodup)
    (hfresh : ∀ res ∈ session.agent_results, res.plan_item_id ≠ item.id) :
    ∃ final results,
      runResearchPhase loads session outcomes nmsgs elapsed =
        Except.ok (final, results) ∧
      results.length = plan.get_pending_items.length ∧
      final.agent_results.filter (fun res => res.plan_item_id = item.id) =
        [producedResult loads item (outcomes item) (elapsed item)] ∧
      (producedResult loads item (outcomes item) (elapsed item)).confidence =
        0 ∧
      (producedResult loads item (outcomes item) (elapsed item)).findings ≠
        "" := by
  have hfold := research_fold_results loads outcomes nmsgs elapsed
    plan.get_pending_items { session with phase := .researching } []
  have hdeg := producedResult_failure loads item (outcomes item)
    (elapsed item) hfail
  unfold runResearchPhase
  rw [hplan]
  rw [hplan] at hfold
  refine ⟨_, _, rfl, ?_, ?_, hdeg.1, hdeg.2⟩
  · rw [hfold.2]
    simp
  · rw [hfold.1]
    show (List.filter _ (session.agent_results ++ _)) = _
    rw [List.filter_append]
    have hleft : session.agent_results.filter
        (fun res => res.plan_item_id = item.id) = [] := by
      rw [List.filter_eq_nil_iff]
      intro res hres hcontra
      exact hfresh res hres (by simpa using hcontra)
    have hright : (plan.get_pending_items.map
          (fun it => producedResult loads it (outcomes it)
            (elapsed it))).filter
        (fun res => res.plan_item_id = item.id) =
        [producedResult loads item (outcomes item) (elapsed item)] := by
      rw [List.filter_map]
      have hcongr : plan.get_pending_items.filter
          ((fun res => decide (res.plan_item_id = item.id)) ∘
            (fun it => producedResult loads it (outcomes it) (elapsed it))) =
          plan.get_pending_items.filter (fun it => it.id = item.id) := by
        apply List.filter_congr
        intro it _
        simp [producedResult_plan_item_id]
      rw [hcongr, filter_id_eq_of_nodup plan.get_pending_items item hnodup
        hmem]
      simp
    rw [hleft, hright]
    simp

/-- Witness for C3: with the second item's worker raising, the batch still
yields one result per item and exactly one degraded entry for item-2. -/
theorem C3_witness :
    ∃ final results,
      runResearchPhase (fun _ => none) c3Session c3Outcomes (fun _ => 0)
        (fun _ => 0) = Except.ok (final, results) ∧
      results.length = c3Plan.get_pending_items.length ∧
      final.agent_results.filter
        (fun res => res.plan_item_id = c3Item2.id) =
        [producedResult (fun _ => none) c3Item2 (c3Outcomes c3Item2) 0] ∧
      (producedResult (fun _ => none) c3Item2 (c3Outcomes c3Item2)
        0).confidence = 0 ∧
      (producedResult (fun _ => none) c3Item2 (c3Outcomes c3Item2)
        0).findings ≠ "" :=
  C3_failed_worker_is_isolated (fun _ => none) c3Session c3Plan c3Outcomes
    (fun _ => 0) (fun _ => 0) c3Item2 rfl (by decide) (by decide) (by decide)
    (by simp [c3Session])

/-- C7: a worker's progress percent is monotonically non-decreasing over the
progress callbacks and capped at 90 while the record is non-terminal; it only
exceeds 90 when the record is moved to a terminal status — 100 on completion —
while the failure path keeps the capped percent under a terminal failed
status. -/
theorem C7_progress_monotone_capped (n : Nat)
    (loads : String → Option ResearcherJson) (session : ResearchSession)
    (item : PlanItem) (r : ExecutionResult) (msg : String) (nmsgs : Nat)
    (elapsed : ℚ) :
    percentAfter n ≤ 90 ∧
    percentAfter n ≤ percentAfter (n + 1) ∧
    (r.success = true →
      ((runSingleResearcher loads session item (.finished r) nmsgs
          elapsed).1.lookup_progress ("researcher-" ++ item.id)).map
        (fun p => (p.status, p.progress_percent)) =
        some (AgentStatus.completed, (100 : ℚ))) ∧
    ((runSingleResearcher loads session item (.raised msg) nmsgs
        elapsed).1.lookup_progress ("researcher-" ++ item.id)).map
      (fun p => (p.status, p.progress_percent)) =
      some (AgentStatus.failed, percentAfter nmsgs) := by
  refine ⟨percentAfter_le n, percentAfter_mono n, ?_, ?_⟩
  · intro hs
    rw [runSingleResearcher_progress_success loads session item r nmsgs
      elapsed hs]
    rfl
  · rw [runSingleResearcher_progress_raised loads session item msg nmsgs
      elapsed]
    rfl

/-- Witness for C7: the completed record reports percent 100. -/
theorem C7_witness :
    ((runSingleResearcher (fun _ => none) c7Session c7Item
        (.finished c7Exec) 1 0).1.lookup_progress
      ("researcher-" ++ c7Item.id)).map
      (fun p => (p.status, p.progress_percent)) =
      some (AgentStatus.completed, (100 : ℚ)) :=
  (C7_progress_monotone_capped 2 (fun _ => none) c7Session c7Item c7Exec "m"
    1 0).2.2.1 rfl

/-- C5: plan parsing attempts the strict decode of the extracted JSON
candidate first; exactly one tolerant repair-and-retry pass runs if and only
if the strict decode fails; a failing repaired decode — and likewise a decoded
object with neither plan items nor clarifications — ends in the distinguished
parse failure, never a silent recovery; and a response without any JSON
candidate fails before any decode, with no repair pass. -/
theorem C5_parse_strict_then_single_repair
    (loads : String → Option PlanJson) (repairJson : String → Option String)
    (defaultId : Nat → String) (content js : String) (data : PlanJson) :
    (extractJsonStr content = Except.ok js → loads js = some data →
      parsePlanResponseT loads repairJson defaultId content =
        (interpretPlanData defaultId data, 0)) ∧
    (extractJsonStr content = Except.ok js → loads js = none →
      (parsePlanResponseT loads repairJson defaultId content).2 = 1 ∧
      ((match repairJson js with
        | some rep => loads rep
        | none => none) = none →
        ∃ e, (parsePlanResponseT loads repairJson defaultId content).1 =
          Except.error e)) ∧
    (∀ e, extractJsonStr content = Except.error e →
      parsePlanResponseT loads repairJson defaultId content =
        (Except.error e, 0)) ∧
    (data.plan_items = [] → data.clarifications = [] →
      ∃ e, interpretPlanData defaultId data = Except.error e) := by
  refine ⟨?_, ?_, ?_, ?_⟩
  · intro hext hloads
    unfold parsePlanResponseT
    rw [hext]
    simp only [hloads]
  · intro hext hloads
    unfold parsePlanResponseT
    rw [hext]
    simp only [hloads]
    cases hrep : repairJson js with
    | none => exact ⟨rfl, fun _ => ⟨PlanParseError.repairFailed, rfl⟩⟩
    | some rep =>
      cases hl2 : loads rep with
      | none =>
        refine ⟨?_, fun _ => ⟨PlanParseError.repairFailed, ?_⟩⟩ <;>
          simp [hl2]
      | some d2 =>
        refine ⟨?_, fun habs => ?_⟩
        · simp [hl2]
        · simp [hl2] at habs
  · intro e hext
    unfold parsePlanResponseT
    rw [hext]
  · intro hitems hclar
    unfold interpretPlanData
    by_cases hm : data.mode.getD "plan" = "clarification"
    · rw [if_pos hm]
      rw [hclar]
      exact ⟨PlanParseError.emptyClarifications, rfl⟩
    · rw [if_neg hm]
      rw [hitems]
      exact ⟨PlanParseError.emptyPlanItems, rfl⟩

/-- Witness for C5: an unparseable brace-delimited response gets exactly one
repair pass and ends in the distinguished parse failure when the repair also
fails. -/
theorem C5_witness :
    (parsePlanResponseT (fun _ => none) (fun _ => none) (fun _ => "gen")
      "\x7bx\x7d").2 = 1 ∧
    ∃ e, (parsePlanResponseT (fun _ => none) (fun _ => none)
      (fun _ => "gen") "\x7bx\x7d").1 = Except.error e := by
  have h := (C5_parse_strict_then_single_repair (fun _ => none)
    (fun _ => none) (fun _ => "gen") "\x7bx\x7d" "\x7bx\x7d" {}).2.1
    rfl rfl
  exact ⟨h.1, h.2 rfl⟩

/-- C8: in the bounded fan-out, every state reachable from the initial pool —
semaphore of size K, N spawned worker tasks — has at most K tasks reporting
running status: a task runs only while holding a permit it acquired before
starting its item and releases only when the item finishes. -/
theorem C8_at_most_limit_running (K N : Nat) (st : PoolState)
    (h : PoolReachable K N st) : runningCount st ≤ K := by
  have hinv := pool_invariant K N st h
  omega

/-- Witness for C8: with limit 1 and two tasks, the state after one acquire
step has one running task, within the limit. -/
theorem C8_witness : runningCount c8State ≤ 1 :=
  C8_at_most_limit_running 1 2 c8State
    (Relation.ReflTransGen.single
      (PoolStep.acquire (initPool 1 2) 0 rfl (by decide)))

/-- C9 counterexample: the cooperative flag is not observed at phase
boundaries — immediately after cancel() sets it, run_full_workflow still
starts the research phase's work, so "no new phase work is started after
cancel()" fails at this input. -/
theorem C9_counterexample :
    (cancel { cancelled := false, checkpointTaskActive := true }).cancelled =
      true ∧
    ResearchPhase.researching ∈
      workflowPhasesStarted
        (cancel { cancelled := false, checkpointTaskActive := true }) true := by
  decide

/-- C9 (amended): cancel() sets a cooperative flag observed at
checkpoint-loop wakeups — no checkpoint save starts at an instant where the
flag reads true — while phase scheduling ignores the flag entirely (new phase
work may still start), and an in-flight worker execution is not terminated:
whatever its outcome, its result is still recorded in the session. -/
theorem C9_cancel_cooperative (cancelledFlag : Nat → Bool) (fuel t0 s : Nat)
    (loads : String → Option ResearcherJson) (session : ResearchSession)
    (item : PlanItem) (outcome : ExecOutcome) (nmsgs : Nat) (elapsed : ℚ) :
    (s ∈ checkpointSaveTimes cancelledFlag fuel t0 →
      cancelledFlag s = false) ∧
    (∀ flags autoConfirm,
      workflowPhasesStarted (cancel flags) autoConfirm =
        workflowPhasesStarted flags autoConfirm) ∧
    producedResult loads item outcome elapsed ∈
      (runSingleResearcher loads session item outcome nmsgs
        elapsed).1.agent_results := by
  refine ⟨mem_checkpointSaveTimes cancelledFlag fuel t0 s, ?_, ?_⟩
  · intro flags autoConfirm
    rfl
  · rw [(runSingleResearcher_spec loads session item outcome nmsgs
      elapsed).2]
    simp

/-- Witness for C9: with cancellation landing at instant 3, save instant 1
happens strictly before it. -/
theorem C9_amended_witness : c9Flag 1 = false :=
  (C9_cancel_cooperative c9Flag 5 0 1 (fun _ => none) c9Session c9Item
    (.raised "boom") 0 0).1 (by decide)

/-- The state subscribe_all returns is the fold of its per-type
subscriptions. -/
theorem subscribeAll_fst (bus : EventBusState) (h : Nat)
    (sid : Option String) :
    (subscribeAll bus h sid).1 =
      (EventType.all.foldl (subscribeAllStep h sid) (bus, [])).1 := rfl

set_option maxHeartbeats 2000000 in
/-- Applying the unsubscribe-all function runs the discard closure of every
event type, in order. -/
theorem subscribeAll_unsub_apply (bus : EventBusState) (h : Nat)
    (sid : Option String) (st : EventBusState) :
    (subscribeAll bus h sid).2 st =
      (EventType.all.map (fun t => unsubFun t h sid)).foldl
        (fun x u => u x) st := by
  show (EventType.all.foldl (subscribeAllStep h sid) (bus, [])).2.foldl
      (fun x u => u x) st = _
  rw [subAll_fold_units h sid EventType.all bus []]
  simp

set_option maxHeartbeats 800000 in
/-- C6: for a handler registered through subscribe or subscribe_all, global
or session-scoped, the returned unsubscribe function is idempotent — a second
call leaves the bus in the same state and raises nothing — and once it has
run, a handler registered nowhere else is matched by no published event. -/
theorem C6_unsubscribe_idempotent_and_final (bus b : EventBusState)
    (t : EventType) (h : Nat) (sid : Option String) (ev : BusEvent)
    (hf : handlerFree bus h) :
    ((subscribe bus t h sid).2 ((subscribe bus t h sid).2 b) =
      (subscribe bus t h sid).2 b) ∧
    h ∉ matchedHandlers
      ((subscribe bus t h sid).2 (subscribe bus t h sid).1) ev ∧
    ((subscribeAll bus h sid).2 ((subscribeAll bus h sid).2 b) =
      (subscribeAll bus h sid).2 b) ∧
    h ∉ matchedHandlers
      ((subscribeAll bus h sid).2 (subscribeAll bus h sid).1) ev := by
  refine ⟨?_, ?_, ?_, ?_⟩
  · rw [subscribe_snd]
    exact unsubFun_idem t h sid b
  · rw [subscribe_snd]
    exact handlerFree_not_matched _ _ _ (handlerFree_after_unsub bus t h sid hf)
  · rw [subscribeAll_unsub_apply, subscribeAll_unsub_apply]
    cases sid with
    | none =>
      rw [chain_unsub_none h EventType.all b,
        chain_unsub_none h EventType.all _]
      simp [filter_self_idem]
    | some s =>
      rw [chain_unsub_some h s EventType.all b,
        chain_unsub_some h s EventType.all _]
      simp [filter_self_idem]
  · rw [subscribeAll_unsub_apply]
    cases sid with
    | none =>
      rw [chain_unsub_none h EventType.all ((subscribeAll bus h none).1)]
      apply handlerFree_not_matched
      apply handlerFree_filter_global
      · intro p hpmem hP
        rcases (subscribeAll_state_none h bus).1 p hpmem with hin | hh
        · exact hf.1 p hin
        · intro _
          have hPp := of_decide_eq_true hP
          exact hPp p.1 (EventType.mem_all p.1)
            (by rw [show p = (p.1, p.2) from rfl, hh])
      · intro x hx
        rw [(subscribeAll_state_none h bus).2] at hx
        exact hf.2 x hx
    | some s =>
      rw [chain_unsub_some h s EventType.all ((subscribeAll bus h (some s)).1)]
      apply handlerFree_not_matched
      apply handlerFree_filter_session
      · intro x hxmem hP
        rcases (subscribeAll_state_some h s bus).1 x hxmem with hin | hh
        · exact hf.2 x hin
        · intro _
          have hPx := of_decide_eq_true hP
          exact hPx x.2.1 (EventType.mem_all x.2.1)
            (by rw [show x = (x.1, x.2.1, x.2.2) from rfl, hh.1, hh.2])
      · intro p hp
        rw [(subscribeAll_state_some h s bus).2] at hp
        exact hf.1 p hp

/-- Witness for C6: after unsubscribe-all on a bus where the handler had no
other registration, no event is delivered to it. -/
theorem C6_witness :
    0 ∉ matchedHandlers
      ((subscribeAll c6Bus 0 none).2 (subscribeAll c6Bus 0 none).1)
      c6Event :=
  (C6_unsubscribe_idempotent_and_final c6Bus c6AltBus .heartbeat 0 none
    c6Event (by simp [handlerFree, c6Bus])).2.2.2

end DR
